import Mathlib

/-!
Verification of the interactive crop-region editor of `ManualCropper.tsx`.

Coordinates are modelled over `ℚ` (the source uses JS numbers; every
operation involved — addition, subtraction, multiplication, division,
`Math.min`/`Math.max`/`Math.abs` and comparisons — is exact on the
rationals that appear here). The interaction handlers of the component are
embedded as pure state-transition functions; the host callbacks
(`onConfirm`, `onClose`, the toast) are modelled as emitted effects.
-/

namespace ShijuanCropper

/-- Pointer/page point, a pair of rational coordinates. -/
structure Point where
  x : ℚ
  y : ℚ
deriving DecidableEq

/-- Normalized rectangle in the 0–1000 page coordinate space
(`NormalizedRect` of `ManualCropper.tsx`, lines 27–32). -/
structure NormalizedRect where
  xmin : ℚ
  ymin : ℚ
  xmax : ℚ
  ymax : ℚ
deriving DecidableEq

/-- The `InteractionMode` union of `ManualCropper.tsx` lines 35–46:
`none | drawing | moving | resizing-{n,s,e,w,nw,ne,sw,se}`.
The source enumerates no separate panning variant. -/
inductive InteractionMode where
  | none
  | drawing
  | moving
  | resizingN
  | resizingS
  | resizingE
  | resizingW
  | resizingNW
  | resizingNE
  | resizingSW
  | resizingSE
deriving DecidableEq

/-- The lifted tool state: the `select` or `pan` tool. -/
inductive Tool where
  | select
  | pan
deriving DecidableEq

/-- Geometry of the raster element, as read by `getNormalizedCoordinates`:
the bounding client rect of the image canvas (`rectLeft/Top/Width/Height`)
and the intrinsic pixel size of the canvas (`canvasWidth/Height`). -/
structure MapCtx where
  rectLeft : ℚ
  rectTop : ℚ
  rectWidth : ℚ
  rectHeight : ℚ
  canvasWidth : ℚ
  canvasHeight : ℚ
deriving DecidableEq

/-- Embeds `getNormalizedCoordinates` (lines 333–345): client point →
visual offset in the element → intrinsic canvas pixels → 0–1000 range,
clamped to `[0,1000]` on both axes. -/
def getNormalizedCoordinates (ctx : MapCtx) (e : Point) : Point :=
  let visualX := e.x - ctx.rectLeft
  let visualY := e.y - ctx.rectTop
  let internalX := visualX * (ctx.canvasWidth / ctx.rectWidth)
  let internalY := visualY * (ctx.canvasHeight / ctx.rectHeight)
  { x := max 0 (min 1000 (internalX / ctx.canvasWidth * 1000)),
    y := max 0 (min 1000 (internalY / ctx.canvasHeight * 1000)) }

/-- Embeds the normalized→device placement used when rendering the
selection over the displayed raster (the CSS `left: xmin/10 %` /
`top: ymin/10 %` placement of lines 627–631, expressed in client
coordinates of the element described by `ctx`). -/
def toDevicePoint (ctx : MapCtx) (p : Point) : Point :=
  { x := ctx.rectLeft + p.x / 1000 * ctx.rectWidth,
    y := ctx.rectTop + p.y / 1000 * ctx.rectHeight }

/-- Embeds the `moving` branch of `handlePointerMove` (lines 417–434):
translate the drag-start rectangle by the drag delta, then clamp the
origin (first against 0, then against `1000 - width/height`). -/
def moveStep (initial : NormalizedRect) (dx dy : ℚ) : NormalizedRect :=
  let width := initial.xmax - initial.xmin
  let height := initial.ymax - initial.ymin
  let newX0 := initial.xmin + dx
  let newY0 := initial.ymin + dy
  let newX1 := if newX0 < 0 then 0 else newX0
  let newY1 := if newY0 < 0 then 0 else newY0
  let newX2 := if newX1 + width > 1000 then 1000 - width else newX1
  let newY2 := if newY1 + height > 1000 then 1000 - height else newY1
  { xmin := newX2, ymin := newY2, xmax := newX2 + width, ymax := newY2 + height }

/-- Embeds the `drawing` branch of `handlePointerMove` (lines 435–441):
min/max envelope of the drag-start anchor (stored in the initial
selection snapshot) and the current point. -/
def drawStep (initial : NormalizedRect) (p : Point) : NormalizedRect :=
  { xmin := min initial.xmin p.x,
    ymin := min initial.ymin p.y,
    xmax := max initial.xmin p.x,
    ymax := max initial.ymin p.y }

/-- West flag of the resize dispatch (line 443). -/
def isWest : InteractionMode → Bool
  | .resizingW | .resizingNW | .resizingSW => true
  | _ => false

/-- East flag of the resize dispatch (line 444). -/
def isEast : InteractionMode → Bool
  | .resizingE | .resizingNE | .resizingSE => true
  | _ => false

/-- North flag of the resize dispatch (line 445). -/
def isNorth : InteractionMode → Bool
  | .resizingN | .resizingNW | .resizingNE => true
  | _ => false

/-- South flag of the resize dispatch (line 446). -/
def isSouth : InteractionMode → Bool
  | .resizingS | .resizingSW | .resizingSE => true
  | _ => false

/-- A mode is one of the eight resize modes exactly when some compass
flag is set. -/
def isResizing (m : InteractionMode) : Bool :=
  isWest m || isEast m || isNorth m || isSouth m

/-- Embeds the resize branch of `handlePointerMove` (lines 442–452): each
set compass flag adjusts its edge, clamped against the opposite edge of
the drag-start rectangle with a 10-unit gap. -/
def resizeStep (mode : InteractionMode) (initial : NormalizedRect) (dx dy : ℚ) :
    NormalizedRect :=
  let r0 := initial
  let r1 := if isWest mode then
      { r0 with xmin := min (initial.xmin + dx) (initial.xmax - 10) } else r0
  let r2 := if isEast mode then
      { r1 with xmax := max (initial.xmax + dx) (initial.xmin + 10) } else r1
  let r3 := if isNorth mode then
      { r2 with ymin := min (initial.ymin + dy) (initial.ymax - 10) } else r2
  let r4 := if isSouth mode then
      { r3 with ymax := max (initial.ymax + dy) (initial.ymin + 10) } else r3
  r4

/-- Interaction state of the cropper: the lifted tool, the selection, the
interaction mode, and the drag-tracking refs (`dragStartPoint`,
`initialSelectionRef`, `lastPanPosition`), plus the container scroll
offsets that panning mutates. -/
structure CropperState where
  tool : Tool
  selection : Option NormalizedRect
  interactionMode : InteractionMode
  dragStartPoint : Option Point
  initialSelectionRef : Option NormalizedRect
  lastPanPosition : Option Point
  scrollLeft : ℚ
  scrollTop : ℚ
deriving DecidableEq

/-- Embeds `startDragState` (lines 349–360): record the normalized
drag-start point and the mode; snapshot the existing selection, or seed a
degenerate point-rectangle when there is none. -/
def startDragState (ctx : MapCtx) (s : CropperState) (e : Point)
    (mode : InteractionMode) : CropperState :=
  let p := getNormalizedCoordinates ctx e
  match s.selection with
  | some sel =>
      { s with dragStartPoint := some p, interactionMode := mode,
               initialSelectionRef := some sel }
  | none =>
      { s with dragStartPoint := some p, interactionMode := mode,
               initialSelectionRef := some ⟨p.x, p.y, p.x, p.y⟩,
               selection := some ⟨p.x, p.y, p.x, p.y⟩ }

/-- Embeds `handleHandleDown` (lines 362–368): inert under the pan tool,
otherwise starts a drag in the given resize mode. -/
def handleHandleDown (ctx : MapCtx) (s : CropperState) (e : Point)
    (mode : InteractionMode) : CropperState :=
  if s.tool = Tool.pan then s else startDragState ctx s e mode

/-- Embeds `handleBoxDown` (lines 370–376): inert under the pan tool,
otherwise starts a `moving` drag. -/
def handleBoxDown (ctx : MapCtx) (s : CropperState) (e : Point) : CropperState :=
  if s.tool = Tool.pan then s else startDragState ctx s e .moving

/-- Embeds `handleBackgroundDown` (lines 378–390): under the pan tool it
re-uses the `moving` state for pan logic and records the last pan
position; under the select tool it starts a `drawing` drag. -/
def handleBackgroundDown (ctx : MapCtx) (s : CropperState) (e : Point) :
    CropperState :=
  if s.tool = Tool.pan then
    { s with interactionMode := .moving, lastPanPosition := some e }
  else
    startDragState ctx s e .drawing

/-- Embeds `handlePointerMove` (lines 392–455): pan scrolling when the
pan tool is active, otherwise the per-mode geometry update guarded by the
drag-tracking refs. -/
def handlePointerMove (ctx : MapCtx) (s : CropperState) (e : Point) :
    CropperState :=
  if s.tool = Tool.pan then
    if s.interactionMode = .moving then
      match s.lastPanPosition with
      | some lp =>
          { s with scrollLeft := s.scrollLeft - (e.x - lp.x),
                   scrollTop := s.scrollTop - (e.y - lp.y),
                   lastPanPosition := some e }
      | none => s
    else s
  else if s.interactionMode = .none then s
  else
    match s.dragStartPoint, s.initialSelectionRef with
    | some ds, some initial =>
        let p := getNormalizedCoordinates ctx e
        let dx := p.x - ds.x
        let dy := p.y - ds.y
        let newRect :=
          if s.interactionMode = .moving then moveStep initial dx dy
          else if s.interactionMode = .drawing then drawStep initial p
          else resizeStep s.interactionMode initial dx dy
        { s with selection := some newRect }
    | _, _ => s

/-- Embeds `handlePointerUp` (lines 457–477): clear the pan anchor under
the pan tool, discard a drawn selection whose width or height is below 10
units, and reset the mode and drag-tracking refs. -/
def handlePointerUp (s : CropperState) : CropperState :=
  let s1 := if s.tool = Tool.pan then { s with lastPanPosition := none } else s
  let s2 :=
    if s1.interactionMode = .drawing then
      match s1.selection with
      | some sel =>
          if |sel.xmax - sel.xmin| < 10 ∨ |sel.ymax - sel.ymin| < 10 then
            { s1 with selection := none }
          else s1
      | none => s1
    else s1
  { s2 with interactionMode := .none, dragStartPoint := none,
            initialSelectionRef := none }

/-- Pointer events reaching the three hit-targets of the cropper. -/
inductive Event where
  | backgroundDown (e : Point)
  | boxDown (e : Point)
  | handleDown (e : Point) (mode : InteractionMode)
  | move (e : Point)
  | up
deriving DecidableEq

/-- One pointer event dispatched to the corresponding handler. -/
def step (ctx : MapCtx) (s : CropperState) : Event → CropperState
  | .backgroundDown e => handleBackgroundDown ctx s e
  | .boxDown e => handleBoxDown ctx s e
  | .handleDown e mode => handleHandleDown ctx s e mode
  | .move e => handlePointerMove ctx s e
  | .up => handlePointerUp s

/-- A whole interaction sequence, dispatched event by event. -/
def run (ctx : MapCtx) (s : CropperState) (evs : List Event) : CropperState :=
  evs.foldl (step ctx) s

/-- Ordering invariant of a rectangle: `xmin ≤ xmax` and `ymin ≤ ymax`. -/
def ordered (r : NormalizedRect) : Prop :=
  r.xmin ≤ r.xmax ∧ r.ymin ≤ r.ymax

instance (r : NormalizedRect) : Decidable (ordered r) := by
  unfold ordered; infer_instance

/-- All four coordinates of a rectangle lie in `[0, 1000]`. -/
def rectInBounds (r : NormalizedRect) : Prop :=
  0 ≤ r.xmin ∧ r.xmin ≤ 1000 ∧ 0 ≤ r.ymin ∧ r.ymin ≤ 1000 ∧
  0 ≤ r.xmax ∧ r.xmax ≤ 1000 ∧ 0 ≤ r.ymax ∧ r.ymax ≤ 1000

instance (r : NormalizedRect) : Decidable (rectInBounds r) := by
  unfold rectInBounds; infer_instance

/-- Lift of a rectangle predicate to an optional selection. -/
def selPred (P : NormalizedRect → Prop) : Option NormalizedRect → Prop
  | none => True
  | some r => P r

instance (P : NormalizedRect → Prop) [DecidablePred P]
    (o : Option NormalizedRect) : Decidable (selPred P o) := by
  cases o <;> (unfold selPred; infer_instance)

/-- The boolean the component reports through `onSelectionChange`
(line 100: `onSelectionChange(!!selection)`). -/
def hasSelectionSignal (s : CropperState) : Bool :=
  s.selection.isSome

/-- Host callbacks the component can invoke from `handleConfirm`: the
commit callback `onConfirm(pageIndex, rect)`, the close callback
`onClose()`, and the transient toast notification. -/
inductive Effect where
  | confirmCall (pageIndex : ℕ) (rect : NormalizedRect)
  | closeCall
  | toastShown (message : String)
deriving DecidableEq

/-- Props and page state read by `handleConfirm`. -/
structure ConfirmEnv where
  currentPageIndex : ℕ
  isEditing : Bool
  nextIndex : ℕ
deriving DecidableEq

/-- State mutated by `handleConfirm`: the selection and the toast. -/
structure ConfirmState where
  selection : Option NormalizedRect
  showToastVisible : Bool
  showToastMessage : String
deriving DecidableEq

/-- Embeds `handleConfirm` (lines 479–499): no-op without a selection;
otherwise invoke `onConfirm(currentPageIndex, selection)`, then in
add-mode clear the selection and show a success toast, and in edit-mode
just clear the selection. Returns the new state and the host callbacks
invoked, in invocation order. -/
def handleConfirm (env : ConfirmEnv) (s : ConfirmState) :
    ConfirmState × List Effect :=
  match s.selection with
  | none => (s, [])
  | some sel =>
    if env.isEditing then
      ({ s with selection := none },
       [Effect.confirmCall env.currentPageIndex sel])
    else
      let msg := "第 " ++ toString env.nextIndex ++ " 题 已添加"
      ({ selection := none, showToastVisible := true, showToastMessage := msg },
       [Effect.confirmCall env.currentPageIndex sel, Effect.toastShown msg])

/-- Layout inputs read by `calculateLayout`: container client size, the
intrinsic size of the current page, and the edit-mode props. -/
structure LayoutEnv where
  containerWidth : ℚ
  containerHeight : ℚ
  pageWidth : ℚ
  pageHeight : ℚ
  isEditing : Bool
  initialRect : Option NormalizedRect
  currentPageIndex : ℕ
  initialPageIndex : ℕ
deriving DecidableEq

/-- View state mutated by `calculateLayout`. -/
structure LayoutState where
  fitScale : ℚ
  zoom : ℚ
  selection : Option NormalizedRect
  tool : Tool
  hasInitializedZoom : Bool
  viewportCenter : Option Point
  preservedScrollAnchor : Option Point
  isLayoutReady : Bool
deriving DecidableEq

/-- Center of a rectangle in the `[0,1]` viewport-anchor space, as
computed on lines 145–147 and 171–173. -/
def rectCenter (r : NormalizedRect) : Point :=
  { x := (r.xmin + r.xmax) / 2 / 1000, y := (r.ymin + r.ymax) / 2 / 1000 }

/-- Embeds `calculateLayout` (lines 121–197): the guard on container
size, the edit-mode width-fit branch, and the default branch with the
once-per-session intelligent default zoom heuristic and the page
transition logic, all latched by `hasInitializedZoom`. -/
def calculateLayout (env : LayoutEnv) (preserveView : Bool) (s : LayoutState) :
    LayoutState :=
  if env.containerWidth ≤ 0 ∨ env.containerHeight ≤ 0 then s
  else
    let scaleX := env.containerWidth / env.pageWidth
    let scaleY := env.containerHeight / env.pageHeight
    let s' :=
      if env.isEditing && env.initialRect.isSome && !s.hasInitializedZoom then
        let fitWidthScale := env.containerWidth / env.pageWidth
        let s1 := { s with fitScale := fitWidthScale }
        let s2 :=
          if !preserveView then
            let s1a := { s1 with zoom := 1 }
            if env.currentPageIndex = env.initialPageIndex then
              match env.initialRect with
              | some r =>
                  { s1a with selection := some r,
                             viewportCenter := some (rectCenter r) }
              | none => s1a
            else s1a
          else s1
        { s2 with hasInitializedZoom := true }
      else
        let s1 := { s with fitScale := min scaleX scaleY }
        if !preserveView then
          if !s.hasInitializedZoom then
            let s2 :=
              if scaleY < scaleX then
                let widthFitZoom := scaleX / scaleY
                let targetZoom := min (widthFitZoom * 1) 3
                { s1 with zoom := max targetZoom 1 }
              else
                { s1 with zoom := 1 }
            let s3 :=
              match env.initialRect with
              | some r =>
                  if env.currentPageIndex = env.initialPageIndex then
                    { s2 with selection := some r,
                              viewportCenter := some (rectCenter r) }
                  else
                    { s2 with selection := none,
                              viewportCenter := some ⟨1/2, 0⟩ }
              | none =>
                  { s2 with selection := none,
                            viewportCenter := some ⟨1/2, 0⟩ }
            { s3 with tool := Tool.select, hasInitializedZoom := true }
          else
            let s2 := { s1 with selection := none }
            match s.preservedScrollAnchor with
            | some ratio =>
                { s2 with viewportCenter := some ratio,
                          preservedScrollAnchor := none }
            | none => { s2 with viewportCenter := some ⟨1/2, 0⟩ }
        else s1
    { s' with isLayoutReady := true }

/-! Concrete fixtures used by witnesses and counterexamples: a raster
context with a 1000×1000 canvas displayed 1:1 at the origin, and a few
starting states. -/

/-- Identity-scale raster context: canvas 1000×1000 displayed at 1000×1000
with its top-left corner at the client origin. -/
def ctx0 : MapCtx := ⟨0, 0, 1000, 1000, 1000, 1000⟩

/-- Select-tool state holding the selection `{100,100,300,300}`, idle. -/
def selState0 : CropperState :=
  ⟨Tool.select, some ⟨100, 100, 300, 300⟩, .none, none, none, none, 0, 0⟩

/-- Pan-tool state holding the selection `{100,100,300,300}`, idle. -/
def panState0 : CropperState :=
  ⟨Tool.pan, some ⟨100, 100, 300, 300⟩, .none, none, none, none, 0, 0⟩

/-- Select-tool state with no selection, idle. -/
def emptySelectState : CropperState :=
  ⟨Tool.select, none, .none, none, none, none, 0, 0⟩

/-- Mid-gesture drawing state whose selection is 4 units wide. -/
def drawSmallState : CropperState :=
  ⟨Tool.select, some ⟨0, 0, 4, 50⟩, .drawing, some ⟨0, 0⟩, some ⟨0, 0, 0, 0⟩,
   none, 0, 0⟩

/-- Fresh layout state before the first layout pass. -/
def layoutStart : LayoutState := ⟨1, 1, none, Tool.pan, false, none, none, false⟩

/-- Layout scenario of the spec: page 2000×2800 in a container 800×600,
default (non-edit) mode. -/
def layoutEnvScenario : LayoutEnv := ⟨800, 600, 2000, 2800, false, none, 0, 0⟩

/-! Helper lemmas shared by the claim theorems. -/

theorem moveStep_ordered (initial : NormalizedRect) (dx dy : ℚ)
    (h : ordered initial) : ordered (moveStep initial dx dy) := by
  obtain ⟨hx, hy⟩ := h
  unfold moveStep ordered
  simp only
  constructor <;> linarith

theorem drawStep_ordered (initial : NormalizedRect) (p : Point) :
    ordered (drawStep initial p) := by
  unfold drawStep ordered
  exact ⟨le_trans (min_le_left _ _) (le_max_left _ _),
         le_trans (min_le_left _ _) (le_max_left _ _)⟩

theorem resizeStep_ordered (mode : InteractionMode) (initial : NormalizedRect)
    (dx dy : ℚ) (h : ordered initial) :
    ordered (resizeStep mode initial dx dy) := by
  obtain ⟨hx, hy⟩ := h
  cases mode <;>
    simp_all [resizeStep, isWest, isEast, isNorth, isSouth, ordered] <;>
    (repeat' apply And.intro) <;>
    (try simp only [min_def, max_def]) <;> (try split_ifs) <;> linarith

/-- Joint ordering invariant over the selection and the drag snapshot. -/
def stateOrdered (s : CropperState) : Prop :=
  selPred ordered s.selection ∧ selPred ordered s.initialSelectionRef

theorem startDragState_ordered (ctx : MapCtx) (s : CropperState) (e : Point)
    (mode : InteractionMode) (h : stateOrdered s) :
    stateOrdered (startDragState ctx s e mode) := by
  obtain ⟨h1, h2⟩ := h
  unfold startDragState
  cases hsel : s.selection with
  | some sel =>
      simp only [hsel]
      refine ⟨?_, ?_⟩ <;> simp_all [selPred]
  | none =>
      simp only [hsel]
      constructor <;> simp [selPred, ordered]

theorem handlePointerUp_selection_cases (s : CropperState) :
    (handlePointerUp s).selection = s.selection ∨
    (handlePointerUp s).selection = none := by
  unfold handlePointerUp
  rcases hsel : s.selection with _ | sel <;> split_ifs <;>
    (try simp [hsel]) <;> (try split_ifs) <;> (try simp) <;> tauto

theorem handlePointerUp_refs (s : CropperState) :
    (handlePointerUp s).initialSelectionRef = none ∧
    (handlePointerUp s).dragStartPoint = none ∧
    (handlePointerUp s).interactionMode = .none := ⟨rfl, rfl, rfl⟩

theorem step_ordered (ctx : MapCtx) (s : CropperState) (ev : Event)
    (h : stateOrdered s) : stateOrdered (step ctx s ev) := by
  obtain ⟨h1, h2⟩ := h
  cases ev with
  | backgroundDown e =>
      unfold step handleBackgroundDown
      split_ifs with ht
      · exact ⟨h1, h2⟩
      · exact startDragState_ordered ctx s e .drawing ⟨h1, h2⟩
  | boxDown e =>
      unfold step handleBoxDown
      split_ifs with ht
      · exact ⟨h1, h2⟩
      · exact startDragState_ordered ctx s e .moving ⟨h1, h2⟩
  | handleDown e mode =>
      unfold step handleHandleDown
      split_ifs with ht
      · exact ⟨h1, h2⟩
      · exact startDragState_ordered ctx s e mode ⟨h1, h2⟩
  | up =>
      refine ⟨?_, ?_⟩
      · rcases handlePointerUp_selection_cases s with hc | hc
        · show selPred ordered (handlePointerUp s).selection
          rw [hc]; exact h1
        · show selPred ordered (handlePointerUp s).selection
          rw [hc]; exact trivial
      · show selPred ordered (handlePointerUp s).initialSelectionRef
        rw [(handlePointerUp_refs s).1]; exact trivial
  | move e =>
      simp only [step]
      unfold handlePointerMove
      by_cases ht : s.tool = Tool.pan
      · rw [if_pos ht]
        split_ifs
        · cases s.lastPanPosition <;> exact ⟨h1, h2⟩
        · exact ⟨h1, h2⟩
      · rw [if_neg ht]
        by_cases hn : s.interactionMode = InteractionMode.none
        · rw [if_pos hn]; exact ⟨h1, h2⟩
        · rw [if_neg hn]
          rcases hds : s.dragStartPoint with _ | ds <;> simp only [hds]
          · exact ⟨h1, h2⟩
          · rcases href : s.initialSelectionRef with _ | initial <;>
              simp only [href]
            · exact ⟨h1, h2⟩
            · have hio : ordered initial := by rw [href] at h2; exact h2
              refine ⟨?_, ?_⟩
              · show selPred ordered (some _)
                simp only [selPred]
                split_ifs
                · exact moveStep_ordered _ _ _ hio
                · exact drawStep_ordered _ _
                · exact resizeStep_ordered _ _ _ _ hio
              · show selPred ordered (some initial)
                simp only [selPred]; exact hio

theorem run_ordered (ctx : MapCtx) (evs : List Event) (s : CropperState)
    (h : stateOrdered s) : stateOrdered (run ctx s evs) := by
  induction evs generalizing s with
  | nil => exact h
  | cons ev rest ih => exact ih (step ctx s ev) (step_ordered ctx s ev h)

theorem calcLayoutFirst (env : LayoutEnv) (s : LayoutState)
    (hE : env.isEditing = false) (hZ : s.hasInitializedZoom = false)
    (hW : 0 < env.containerWidth) (hH : 0 < env.containerHeight) :
    (calculateLayout env false s).fitScale
        = min (env.containerWidth / env.pageWidth)
              (env.containerHeight / env.pageHeight) ∧
    (calculateLayout env false s).zoom
        = (if env.containerHeight / env.pageHeight
              < env.containerWidth / env.pageWidth
           then max (min (env.containerWidth / env.pageWidth
                            / (env.containerHeight / env.pageHeight)) 3) 1
           else 1) ∧
    (calculateLayout env false s).hasInitializedZoom = true := by
  have hg : ¬ (env.containerWidth ≤ 0 ∨ env.containerHeight ≤ 0) := by
    push_neg
    exact ⟨hW, hH⟩
  unfold calculateLayout
  rw [if_neg hg]
  simp only [hE, hZ, Bool.false_and, Bool.if_false_left]
  simp only [Bool.not_false, Bool.and_true, Bool.false_and, if_false]
  split_ifs with hlt <;>
    rcases env.initialRect with _ | r <;>
    (try split_ifs) <;> (try simp [mul_one, hlt]) <;> contradiction

theorem calcLayoutLatch (env2 : LayoutEnv) (pv : Bool) (t : LayoutState)
    (ht : t.hasInitializedZoom = true) :
    (calculateLayout env2 pv t).zoom = t.zoom := by
  unfold calculateLayout
  by_cases hg : env2.containerWidth ≤ 0 ∨ env2.containerHeight ≤ 0
  · rw [if_pos hg]
  · rw [if_neg hg]
    simp only [ht, Bool.not_true, Bool.and_false, if_false]
    cases pv
    · simp only [Bool.not_false, if_true]
      cases t.preservedScrollAnchor <;> rfl
    · rfl

/-! Claim theorems. -/

/-- C1, counterexample: at a concrete edit-mode confirm with a non-null
selection, `handleConfirm` invokes only `onConfirm` — `onClose` is not
among the invoked callbacks — refuting the claim that the controller
signals close in edit mode. -/
theorem handleConfirm_edit_close_cex :
    (handleConfirm ⟨2, true, 5⟩ ⟨some ⟨100, 100, 300, 300⟩, false, ""⟩).2
      = [Effect.confirmCall 2 ⟨100, 100, 300, 300⟩] ∧
    Effect.closeCall ∉
      (handleConfirm ⟨2, true, 5⟩ ⟨some ⟨100, 100, 300, 300⟩, false, ""⟩).2 ∧
    (handleConfirm ⟨2, true, 5⟩
        ⟨some ⟨100, 100, 300, 300⟩, false, ""⟩).1.selection = none := by
  refine ⟨?_, ?_, ?_⟩ <;> simp [handleConfirm]

/-- C1, amended: with a non-null selection, `handleConfirm` invokes
`onConfirm(currentPageIndex, selection)` and clears the selection in both
modes; in add-mode it additionally shows the success toast; it never
invokes `onClose` itself. -/
theorem handleConfirm_commit_modes (env : ConfirmEnv) (s : ConfirmState)
    (sel : NormalizedRect) (hs : s.selection = some sel) :
    (env.isEditing = true →
      (handleConfirm env s).2 = [Effect.confirmCall env.currentPageIndex sel] ∧
      (handleConfirm env s).1.selection = none) ∧
    (env.isEditing = false →
      (handleConfirm env s).2 =
        [Effect.confirmCall env.currentPageIndex sel,
         Effect.toastShown ("第 " ++ toString env.nextIndex ++ " 题 已添加")] ∧
      (handleConfirm env s).1.selection = none ∧
      (handleConfirm env s).1.showToastVisible = true) ∧
    Effect.closeCall ∉ (handleConfirm env s).2 := by
  unfold handleConfirm
  rw [hs]
  cases he : env.isEditing <;> simp [he]

/-- C1, witness: the amended theorem applied at a concrete add-mode
input. -/
theorem handleConfirm_commit_modes_witness :
    (handleConfirm ⟨0, false, 3⟩ ⟨some ⟨1, 2, 30, 40⟩, false, ""⟩).2
      = [Effect.confirmCall 0 ⟨1, 2, 30, 40⟩,
         Effect.toastShown ("第 " ++ toString (3 : ℕ) ++ " 题 已添加")] ∧
    Effect.closeCall ∉
      (handleConfirm ⟨0, false, 3⟩ ⟨some ⟨1, 2, 30, 40⟩, false, ""⟩).2 :=
  ⟨((handleConfirm_commit_modes ⟨0, false, 3⟩ ⟨some ⟨1, 2, 30, 40⟩, false, ""⟩
      ⟨1, 2, 30, 40⟩ rfl).2.1 rfl).1,
   (handleConfirm_commit_modes ⟨0, false, 3⟩ ⟨some ⟨1, 2, 30, 40⟩, false, ""⟩
      ⟨1, 2, 30, 40⟩ rfl).2.2⟩

/-- C2, counterexample: starting from the in-bounds selection
`{100,100,300,300}`, pressing the east resize handle at normalized x=290
and dragging to x=1000 yields `{100,100,1010,300}` — `xmax = 1010` lies
outside `[0,1000]`, refuting the claim that every interaction sequence
keeps all four coordinates in `[0,1000]`. -/
theorem run_resize_bounds_cex :
    rectInBounds ⟨100, 100, 300, 300⟩ ∧
    (run ctx0 selState0
        [Event.handleDown ⟨290, 200⟩ .resizingE,
         Event.move ⟨1000, 200⟩]).selection = some ⟨100, 100, 1010, 300⟩ ∧
    ¬ rectInBounds ⟨100, 100, 1010, 300⟩ := by
  refine ⟨by norm_num [rectInBounds], ?_, by norm_num [rectInBounds]⟩
  simp +decide [run, step, handleHandleDown, startDragState, handlePointerMove,
    getNormalizedCoordinates, resizeStep, isWest, isEast, isNorth, isSouth,
    ctx0, selState0, min_def, max_def]
  norm_num

/-- C2, amended: for every interaction sequence applied to a selection
that starts in `[0,1000]` with `xmin ≤ xmax` and `ymin ≤ ymax`, the
resulting selection, whenever non-null, still satisfies `xmin ≤ xmax` and
`ymin ≤ ymax`; the coordinates need not stay inside `[0,1000]`, because
resize steps clamp only against the opposite edge. -/
theorem run_selection_ordered (ctx : MapCtx) (s : CropperState)
    (evs : List Event)
    (hb1 : selPred rectInBounds s.selection)
    (hb2 : selPred rectInBounds s.initialSelectionRef)
    (h1 : selPred ordered s.selection)
    (h2 : selPred ordered s.initialSelectionRef) :
    selPred ordered (run ctx s evs).selection :=
  (run_ordered ctx evs s ⟨h1, h2⟩).1

/-- C2, witness: the amended theorem applied to the concrete
resize-beyond-bounds trace. -/
theorem run_selection_ordered_witness :
    selPred ordered
      (run ctx0 selState0
        [Event.handleDown ⟨290, 200⟩ .resizingE,
         Event.move ⟨1000, 200⟩]).selection :=
  run_selection_ordered ctx0 selState0
    [Event.handleDown ⟨290, 200⟩ .resizingE, Event.move ⟨1000, 200⟩]
    (by norm_num [selState0, selPred, rectInBounds])
    (by norm_num [selState0, selPred])
    (by norm_num [selState0, selPred, ordered])
    (by norm_num [selState0, selPred])

/-- C3, counterexample: a pan-tool pointer-down on the background puts
the state machine into `moving` — the very same mode a select-tool drag
of the selection body enters — and the embedded `InteractionMode`
enumeration of lines 35–46 has no `panning` variant, refuting the claim
of a distinct `panning` state. -/
theorem pan_down_mode_cex :
    (handleBackgroundDown ctx0 panState0 ⟨500, 500⟩).interactionMode
      = InteractionMode.moving ∧
    (handleBoxDown ctx0 selState0 ⟨150, 150⟩).interactionMode
      = InteractionMode.moving ∧
    (handleBackgroundDown ctx0 panState0 ⟨500, 500⟩).interactionMode
      = (handleBoxDown ctx0 selState0 ⟨150, 150⟩).interactionMode := by
  refine ⟨?_, ?_, ?_⟩ <;>
    simp +decide [handleBackgroundDown, handleBoxDown, startDragState,
      panState0, selState0]

/-- C3, amended: under the pan tool, a background pointer-down enters the
re-used `moving` state (recording the pan anchor and leaving the
selection untouched), and the selection body and resize handle
hit-targets are inert. -/
theorem pan_tool_gating (ctx : MapCtx) (s : CropperState) (e : Point)
    (m : InteractionMode) (ht : s.tool = Tool.pan) :
    handleHandleDown ctx s e m = s ∧
    handleBoxDown ctx s e = s ∧
    (handleBackgroundDown ctx s e).interactionMode = InteractionMode.moving ∧
    (handleBackgroundDown ctx s e).selection = s.selection ∧
    (handleBackgroundDown ctx s e).lastPanPosition = some e := by
  simp [handleHandleDown, handleBoxDown, handleBackgroundDown, ht]

/-- C3, witness: the amended theorem applied at a concrete pan-tool
state. -/
theorem pan_tool_gating_witness :
    handleHandleDown ctx0 panState0 ⟨10, 10⟩ .resizingE = panState0 ∧
    handleBoxDown ctx0 panState0 ⟨10, 10⟩ = panState0 ∧
    (handleBackgroundDown ctx0 panState0 ⟨10, 10⟩).interactionMode
      = InteractionMode.moving ∧
    (handleBackgroundDown ctx0 panState0 ⟨10, 10⟩).selection
      = panState0.selection ∧
    (handleBackgroundDown ctx0 panState0 ⟨10, 10⟩).lastPanPosition
      = some ⟨10, 10⟩ :=
  pan_tool_gating ctx0 panState0 ⟨10, 10⟩ .resizingE rfl

/-- C4: a `moving` drag step from a rectangle inside `[0,1000]²`
translates it by the drag delta clamped per-axis so the rectangle stays
inside `[0,1000]²`, preserving width and height exactly; after the step
`0 ≤ xmin`, `xmax ≤ 1000`, `0 ≤ ymin` and `ymax ≤ 1000` (each move event
recomputes from the drag-start rectangle, so this holds after every
intermediate step of a drag). -/
theorem moveStep_clamped_translation (initial : NormalizedRect) (dx dy : ℚ)
    (h0x : 0 ≤ initial.xmin) (h1x : initial.xmax ≤ 1000)
    (hox : initial.xmin ≤ initial.xmax)
    (h0y : 0 ≤ initial.ymin) (h1y : initial.ymax ≤ 1000)
    (hoy : initial.ymin ≤ initial.ymax) :
    (moveStep initial dx dy).xmin
        = min (max (initial.xmin + dx) 0)
              (1000 - (initial.xmax - initial.xmin)) ∧
    (moveStep initial dx dy).ymin
        = min (max (initial.ymin + dy) 0)
              (1000 - (initial.ymax - initial.ymin)) ∧
    (moveStep initial dx dy).xmax - (moveStep initial dx dy).xmin
        = initial.xmax - initial.xmin ∧
    (moveStep initial dx dy).ymax - (moveStep initial dx dy).ymin
        = initial.ymax - initial.ymin ∧
    0 ≤ (moveStep initial dx dy).xmin ∧
    (moveStep initial dx dy).xmax ≤ 1000 ∧
    0 ≤ (moveStep initial dx dy).ymin ∧
    (moveStep initial dx dy).ymax ≤ 1000 := by
  unfold moveStep
  simp only
  split_ifs with hx0 hxw hy0 hyw hy0 hyw hxw hy0 hyw hy0 hyw <;>
    refine ⟨?_, ?_, by ring, by ring, ?_, ?_, ?_, ?_⟩ <;>
    (try simp only [min_def, max_def]) <;> (try split_ifs) <;> linarith

/-- C4, witness: a move step with a huge delta from `{100,100,300,300}`
stays clamped and keeps its 200×200 size. -/
theorem moveStep_clamped_translation_witness :
    (moveStep ⟨100, 100, 300, 300⟩ 2000 (-500)).xmax
      - (moveStep ⟨100, 100, 300, 300⟩ 2000 (-500)).xmin = 200 ∧
    (moveStep ⟨100, 100, 300, 300⟩ 2000 (-500)).xmax ≤ 1000 ∧
    0 ≤ (moveStep ⟨100, 100, 300, 300⟩ 2000 (-500)).ymin := by
  have h := moveStep_clamped_translation ⟨100, 100, 300, 300⟩ 2000 (-500)
    (by norm_num) (by norm_num) (by norm_num)
    (by norm_num) (by norm_num) (by norm_num)
  have hw := h.2.2.1
  norm_num at hw
  exact ⟨hw, h.2.2.2.2.2.1, h.2.2.2.2.2.2.1⟩

/-- C5: in each of the 8 resize modes, exactly the edges implied by the
compass direction change — each to its dragged position clamped against
the opposite edge with a 10-unit gap — and the other edges are untouched;
from a rectangle with `xmin ≤ xmax − 10` and `ymin ≤ ymax − 10` both gap
invariants hold after the step, for arbitrary drag deltas. -/
theorem resizeStep_min_gap (mode : InteractionMode) (initial : NormalizedRect)
    (dx dy : ℚ) (hm : isResizing mode = true)
    (hx : initial.xmin ≤ initial.xmax - 10)
    (hy : initial.ymin ≤ initial.ymax - 10) :
    (resizeStep mode initial dx dy).xmin
        = (if isWest mode then min (initial.xmin + dx) (initial.xmax - 10)
           else initial.xmin) ∧
    (resizeStep mode initial dx dy).xmax
        = (if isEast mode then max (initial.xmax + dx) (initial.xmin + 10)
           else initial.xmax) ∧
    (resizeStep mode initial dx dy).ymin
        = (if isNorth mode then min (initial.ymin + dy) (initial.ymax - 10)
           else initial.ymin) ∧
    (resizeStep mode initial dx dy).ymax
        = (if isSouth mode then max (initial.ymax + dy) (initial.ymin + 10)
           else initial.ymax) ∧
    (resizeStep mode initial dx dy).xmin
        ≤ (resizeStep mode initial dx dy).xmax - 10 ∧
    (resizeStep mode initial dx dy).ymin
        ≤ (resizeStep mode initial dx dy).ymax - 10 := by
  cases mode <;>
    simp_all [resizeStep, isResizing, isWest, isEast, isNorth, isSouth] <;>
    (repeat' apply And.intro) <;>
    (try simp only [min_def, max_def]) <;>
    (try split_ifs) <;> linarith

/-- C5, witness: the scenario of the spec — an `se` drag of `dx=+50, dy=−500`
from `{100,100,300,300}` gives `xmax = 350` and `ymax` clamped to `110`,
and both gap invariants hold. -/
theorem resizeStep_min_gap_witness :
    (resizeStep .resizingSE ⟨100, 100, 300, 300⟩ 50 (-500)).xmax = 350 ∧
    (resizeStep .resizingSE ⟨100, 100, 300, 300⟩ 50 (-500)).ymax = 110 ∧
    (resizeStep .resizingSE ⟨100, 100, 300, 300⟩ 50 (-500)).xmin
      ≤ (resizeStep .resizingSE ⟨100, 100, 300, 300⟩ 50 (-500)).xmax - 10 ∧
    (resizeStep .resizingSE ⟨100, 100, 300, 300⟩ 50 (-500)).ymin
      ≤ (resizeStep .resizingSE ⟨100, 100, 300, 300⟩ 50 (-500)).ymax - 10 :=
  ⟨by norm_num [resizeStep, isWest, isEast, isNorth, isSouth, min_def, max_def],
   by norm_num [resizeStep, isWest, isEast, isNorth, isSouth, min_def, max_def],
   (resizeStep_min_gap .resizingSE ⟨100, 100, 300, 300⟩ 50 (-500)
      rfl (by norm_num) (by norm_num)).2.2.2.2.1,
   (resizeStep_min_gap .resizingSE ⟨100, 100, 300, 300⟩ 50 (-500)
      rfl (by norm_num) (by norm_num)).2.2.2.2.2⟩

/-- C6: a pointer-up ending a `drawing` gesture discards the selection
(sets it to null) exactly when its width or height is below 10 units, and
keeps it unchanged otherwise. -/
theorem pointerUp_drawing_discard (s : CropperState) (sel : NormalizedRect)
    (hm : s.interactionMode = InteractionMode.drawing)
    (hs : s.selection = some sel) :
    (handlePointerUp s).selection =
      if |sel.xmax - sel.xmin| < 10 ∨ |sel.ymax - sel.ymin| < 10 then none
      else some sel := by
  unfold handlePointerUp
  by_cases hc : |sel.xmax - sel.xmin| < 10 ∨ |sel.ymax - sel.ymin| < 10
  · rw [if_pos hc]
    split_ifs <;> simp_all
  · rw [if_neg hc]
    split_ifs <;> simp only [hs] <;> rw [if_neg hc] <;> simp_all

/-- C6, witness: ending a draw whose rectangle is only 4 units wide
leaves no selection. -/
theorem pointerUp_drawing_discard_witness :
    (handlePointerUp drawSmallState).selection = none := by
  rw [pointerUp_drawing_discard drawSmallState ⟨0, 0, 4, 50⟩ rfl rfl]
  norm_num

/-- C7: a draw started on empty background produces the min/max envelope
of the (normalized) anchor and current points, so drawing from A to B and
from B to A produce the identical rectangle. -/
theorem drawing_envelope_commutes (ctx : MapCtx) (a b : Point) :
    (handlePointerMove ctx (handleBackgroundDown ctx emptySelectState a) b).selection =
      some ⟨min (getNormalizedCoordinates ctx a).x (getNormalizedCoordinates ctx b).x,
            min (getNormalizedCoordinates ctx a).y (getNormalizedCoordinates ctx b).y,
            max (getNormalizedCoordinates ctx a).x (getNormalizedCoordinates ctx b).x,
            max (getNormalizedCoordinates ctx a).y (getNormalizedCoordinates ctx b).y⟩ ∧
    (handlePointerMove ctx (handleBackgroundDown ctx emptySelectState a) b).selection =
      (handlePointerMove ctx (handleBackgroundDown ctx emptySelectState b) a).selection := by
  constructor
  · simp +decide [handlePointerMove, handleBackgroundDown, startDragState,
      emptySelectState, drawStep]
  · simp +decide [handlePointerMove, handleBackgroundDown, startDragState,
      emptySelectState, drawStep]
    exact ⟨min_comm _ _, min_comm _ _, max_comm _ _, max_comm _ _⟩

/-- C8: `getNormalizedCoordinates` maps a client point over the raster
into `[0,1000]` on both axes, and mapping back through the rendering
placement recovers the original point exactly, for any displayed-to-
intrinsic scale factor between 0.1× and 10×. -/
theorem coordinate_round_trip (ctx : MapCtx) (e : Point)
    (hcw : 0 < ctx.canvasWidth) (hch : 0 < ctx.canvasHeight)
    (hrw : 0 < ctx.rectWidth) (hrh : 0 < ctx.rectHeight)
    (hsx1 : 1 / 10 ≤ ctx.rectWidth / ctx.canvasWidth)
    (hsx2 : ctx.rectWidth / ctx.canvasWidth ≤ 10)
    (hsy1 : 1 / 10 ≤ ctx.rectHeight / ctx.canvasHeight)
    (hsy2 : ctx.rectHeight / ctx.canvasHeight ≤ 10)
    (hx1 : ctx.rectLeft ≤ e.x) (hx2 : e.x ≤ ctx.rectLeft + ctx.rectWidth)
    (hy1 : ctx.rectTop ≤ e.y) (hy2 : e.y ≤ ctx.rectTop + ctx.rectHeight) :
    0 ≤ (getNormalizedCoordinates ctx e).x ∧
    (getNormalizedCoordinates ctx e).x ≤ 1000 ∧
    0 ≤ (getNormalizedCoordinates ctx e).y ∧
    (getNormalizedCoordinates ctx e).y ≤ 1000 ∧
    toDevicePoint ctx (getNormalizedCoordinates ctx e) = e := by
  refine ⟨le_max_left _ _, max_le (by norm_num) (min_le_left _ _),
          le_max_left _ _, max_le (by norm_num) (min_le_left _ _), ?_⟩
  obtain ⟨ex, ey⟩ := e
  unfold toDevicePoint getNormalizedCoordinates
  simp only [Point.mk.injEq] at *
  have hxv : (ex - ctx.rectLeft) * (ctx.canvasWidth / ctx.rectWidth)
        / ctx.canvasWidth * 1000
      = (ex - ctx.rectLeft) / ctx.rectWidth * 1000 := by
    field_simp
    ring
  have hyv : (ey - ctx.rectTop) * (ctx.canvasHeight / ctx.rectHeight)
        / ctx.canvasHeight * 1000
      = (ey - ctx.rectTop) / ctx.rectHeight * 1000 := by
    field_simp
    ring
  rw [hxv, hyv]
  have hx0 : 0 ≤ (ex - ctx.rectLeft) / ctx.rectWidth * 1000 :=
    mul_nonneg (div_nonneg (by linarith) hrw.le) (by norm_num)
  have hy0 : 0 ≤ (ey - ctx.rectTop) / ctx.rectHeight * 1000 :=
    mul_nonneg (div_nonneg (by linarith) hrh.le) (by norm_num)
  have hx1000 : (ex - ctx.rectLeft) / ctx.rectWidth * 1000 ≤ 1000 := by
    have hle : (ex - ctx.rectLeft) / ctx.rectWidth ≤ 1 := by
      rw [div_le_one hrw]; linarith
    linarith
  have hy1000 : (ey - ctx.rectTop) / ctx.rectHeight * 1000 ≤ 1000 := by
    have hle : (ey - ctx.rectTop) / ctx.rectHeight ≤ 1 := by
      rw [div_le_one hrh]; linarith
    linarith
  rw [min_eq_right hx1000, min_eq_right hy1000,
      max_eq_right hx0, max_eq_right hy0]
  constructor
  · field_simp
    ring
  · field_simp
    ring

/-- C8, witness: the round trip at scale 1× through `ctx0`. -/
theorem coordinate_round_trip_witness :
    0 ≤ (getNormalizedCoordinates ctx0 ⟨250, 400⟩).x ∧
    (getNormalizedCoordinates ctx0 ⟨250, 400⟩).x ≤ 1000 ∧
    0 ≤ (getNormalizedCoordinates ctx0 ⟨250, 400⟩).y ∧
    (getNormalizedCoordinates ctx0 ⟨250, 400⟩).y ≤ 1000 ∧
    toDevicePoint ctx0 (getNormalizedCoordinates ctx0 ⟨250, 400⟩) = ⟨250, 400⟩ :=
  coordinate_round_trip ctx0 ⟨250, 400⟩
    (by norm_num [ctx0]) (by norm_num [ctx0]) (by norm_num [ctx0])
    (by norm_num [ctx0]) (by norm_num [ctx0]) (by norm_num [ctx0])
    (by norm_num [ctx0]) (by norm_num [ctx0]) (by norm_num [ctx0])
    (by norm_num [ctx0]) (by norm_num [ctx0]) (by norm_num [ctx0])

/-- C9: on a first default-mode layout (latch unset), the fit scale is
`min(containerWidth/pageWidth, containerHeight/pageHeight)`; the default
zoom is `scaleX/scaleY` capped at 3 and floored at 1 when
`scaleY < scaleX`, and 1 otherwise; the latch is set afterwards, and once
the latch is set no later `calculateLayout` call — in particular the
`preserveView` calls issued on container resizes — changes the zoom. -/
theorem calculateLayout_first_load_zoom (env : LayoutEnv) (s : LayoutState)
    (hE : env.isEditing = false) (hZ : s.hasInitializedZoom = false)
    (hW : 0 < env.containerWidth) (hH : 0 < env.containerHeight) :
    (calculateLayout env false s).fitScale
        = min (env.containerWidth / env.pageWidth)
              (env.containerHeight / env.pageHeight) ∧
    (calculateLayout env false s).zoom
        = (if env.containerHeight / env.pageHeight
              < env.containerWidth / env.pageWidth
           then max (min (env.containerWidth / env.pageWidth
                            / (env.containerHeight / env.pageHeight)) 3) 1
           else 1) ∧
    (calculateLayout env false s).hasInitializedZoom = true ∧
    (∀ (env2 : LayoutEnv) (pv : Bool) (t : LayoutState),
        t.hasInitializedZoom = true →
        (calculateLayout env2 pv t).zoom = t.zoom) :=
  ⟨(calcLayoutFirst env s hE hZ hW hH).1,
   (calcLayoutFirst env s hE hZ hW hH).2.1,
   (calcLayoutFirst env s hE hZ hW hH).2.2,
   fun env2 pv t ht => calcLayoutLatch env2 pv t ht⟩

/-- C9, witness: the scenario of the spec — page 2000×2800 in a container
800×600 gives `fitScale = 3/14 ≈ 0.2143`, the portrait heuristic fires
(`scaleY < scaleX`), and the zoom becomes `28/15`. -/
theorem calculateLayout_first_load_zoom_witness :
    (calculateLayout layoutEnvScenario false layoutStart).fitScale
        = min (layoutEnvScenario.containerWidth / layoutEnvScenario.pageWidth)
              (layoutEnvScenario.containerHeight / layoutEnvScenario.pageHeight) ∧
    min (layoutEnvScenario.containerWidth / layoutEnvScenario.pageWidth)
        (layoutEnvScenario.containerHeight / layoutEnvScenario.pageHeight)
      = (3 / 14 : ℚ) ∧
    layoutEnvScenario.containerHeight / layoutEnvScenario.pageHeight
      < layoutEnvScenario.containerWidth / layoutEnvScenario.pageWidth ∧
    (calculateLayout layoutEnvScenario false layoutStart).zoom = 28 / 15 :=
  ⟨(calculateLayout_first_load_zoom layoutEnvScenario layoutStart
      rfl rfl (by norm_num [layoutEnvScenario]) (by norm_num [layoutEnvScenario])).1,
   by norm_num [layoutEnvScenario, min_def],
   by norm_num [layoutEnvScenario],
   by
    rw [(calculateLayout_first_load_zoom layoutEnvScenario layoutStart
      rfl rfl (by norm_num [layoutEnvScenario])
      (by norm_num [layoutEnvScenario])).2.1]
    norm_num [layoutEnvScenario, min_def, max_def]⟩

/-- C10: with the select tool and no existing selection, a background
pointer-down immediately creates the degenerate selection
`{x, y, x, y}` at the normalized pointer point — so the
`onSelectionChange` signal becomes true before any movement — and the
matching pointer-up of a bare click discards it (zero span < 10), so the
signal becomes false again with a null selection. -/
theorem background_click_transient_signal (ctx : MapCtx) (s : CropperState)
    (e : Point) (ht : s.tool = Tool.select) (hs : s.selection = none) :
    (handleBackgroundDown ctx s e).selection =
      some ⟨(getNormalizedCoordinates ctx e).x, (getNormalizedCoordinates ctx e).y,
            (getNormalizedCoordinates ctx e).x, (getNormalizedCoordinates ctx e).y⟩ ∧
    hasSelectionSignal (handleBackgroundDown ctx s e) = true ∧
    (handlePointerUp (handleBackgroundDown ctx s e)).selection = none ∧
    hasSelectionSignal (handlePointerUp (handleBackgroundDown ctx s e)) = false := by
  simp +decide [handleBackgroundDown, handlePointerUp, startDragState,
    hasSelectionSignal, ht, hs]

/-- C10, witness: a bare click at (250, 400) through `ctx0`. -/
theorem background_click_transient_signal_witness :
    hasSelectionSignal (handleBackgroundDown ctx0 emptySelectState ⟨250, 400⟩)
      = true ∧
    hasSelectionSignal
      (handlePointerUp (handleBackgroundDown ctx0 emptySelectState ⟨250, 400⟩))
      = false :=
  ⟨(background_click_transient_signal ctx0 emptySelectState ⟨250, 400⟩
      rfl rfl).2.1,
   (background_click_transient_signal ctx0 emptySelectState ⟨250, 400⟩
      rfl rfl).2.2.2⟩

end ShijuanCropper
